import Mathlib

/-!
Verification of the Zero Standing Privilege gateway (Azure Function app).

The Python sources (`function_app.py`, `admin_access.py`, `nhi_access.py`,
`audit.py`) are embedded shallowly: every external effect (Graph / ARM
provider calls, the durable-orchestration client, the wall clock) is passed
in as an explicit argument describing the outcome of that call, and every
handler returns, besides its HTTP response, the trace of effects it
performed (provider calls attempted, audit events emitted via
`log_access_event`, orchestrations started via `client.start_new`).
Instants are modelled as integers (seconds); `now + minutes*60` embeds
`datetime.now(timezone.utc) + timedelta(minutes=m)`.  Each call of
`datetime.now` in the source is a separate clock argument here.
-/

namespace ZSP

/-- Python `s.split(sep)` for a one-character separator, on character
lists: splits at every occurrence, keeping empty pieces (so the result is
never empty and `"".split` gives `[""]`). -/
def pySplitAux (sep : Char) : List Char → List (List Char)
  | [] => [[]]
  | x :: xs =>
      let rest := pySplitAux sep xs
      if x == sep then [] :: rest
      else
        match rest with
        | r :: rs => (x :: r) :: rs
        | [] => [[x]]

/-- Python `s.split(sep)` for a one-character separator. -/
def pySplit (s : String) (sep : Char) : List String :=
  (pySplitAux sep s.toList).map (fun cs => String.mk cs)

/-- Python `s.lower()`. -/
def pyLower (s : String) : String :=
  String.mk (s.toList.map Char.toLower)

/-- Helper for the substring test: does `needle` occur as a contiguous run
in the character list? -/
def strContainsAux (needle : List Char) : List Char → Bool
  | [] => needle.isEmpty
  | c :: rest => needle.isPrefixOf (c :: rest) || strContainsAux needle rest

/-- Python substring test `needle in haystack` (on strings). -/
def strContains (haystack needle : String) : Bool :=
  strContainsAux needle.toList haystack.toList

/-- Outcome of a provider call returning no payload: success, or an
exception carrying `str(e)`. -/
inductive CallResult
  | ok
  | err (msg : String)
deriving DecidableEq, Repr

/-- The Python exception classes raised by the embedded code. -/
inductive PyError
  | valueError (msg : String)
  | indexError
  | providerError (msg : String)
deriving DecidableEq, Repr

/-- The Python `str(e)` of an exception. -/
def PyError.message : PyError → String
  | .valueError m => m
  | .indexError => "list index out of range"
  | .providerError m => m

/-- One record shipped by `audit.log_access_event` (an AuditEvent).
`log_access_event` swallows every delivery failure, so at this level of
abstraction calling it is emitting the event. -/
structure AuditEvent where
  event_type : String
  identity_type : String
  principal_id : String
  target : String
  target_type : String
  result : String
  role : Option String
  duration_minutes : Option Int
  justification : Option String
  ticket_id : Option String
  workflow_id : Option String
  expires_at : Option Int
  error_message : Option String
deriving DecidableEq, Repr

/-- The `client_input` payload of a `client.start_new("revocation_orchestrator", ...)`
call: one ScheduledRevocation. -/
structure OrchestratorInput where
  revocation_type : String
  user_id : Option String
  group_id : Option String
  assignment_id : Option String
  sp_object_id : Option String
  scope : Option String
  role : Option String
  expiry_time : Int
deriving DecidableEq, Repr

/-- Payload of `function_app.py` lines 91-96. -/
def mkGroupOrch (user_id group_id : String) (expiry_time : Int) : OrchestratorInput :=
  { revocation_type := "group_membership", user_id := some user_id,
    group_id := some group_id, assignment_id := none, sp_object_id := none,
    scope := none, role := none, expiry_time := expiry_time }

/-- Payload of `function_app.py` lines 203-210 (also 309-316). -/
def mkRoleOrch (assignment_id sp_object_id scope role : String) (expiry_time : Int) :
    OrchestratorInput :=
  { revocation_type := "role_assignment", user_id := none, group_id := none,
    assignment_id := some assignment_id, sp_object_id := some sp_object_id,
    scope := some scope, role := some role, expiry_time := expiry_time }

/-- Embeds `revocation_orchestrator`: the instant the durable timer is created for,
and the activity dispatched after it fires (`function_app.py` lines 329-347). -/
def revocation_orchestrator (input : OrchestratorInput) : Int × String :=
  (input.expiry_time,
    if input.revocation_type == "group_membership" then
      "revoke_group_membership_activity"
    else if input.revocation_type == "role_assignment" then
      "revoke_role_assignment_activity"
    else "")

/-! Embedding of admin_access.py -/

/-- Return value of `grant_admin_access` (`admin_access.py` lines 69-77). -/
structure AdminGrantRecord where
  status : String
  user_id : String
  group_id : String
  expires_at : Int
  duration_minutes : Int
  justification : String
  ticket_id : Option String
deriving DecidableEq, Repr

/-- Embeds `admin_access.grant_admin_access`.  The membership pre-check
(lines 41-49) is read-only and its outcome is swallowed, so it carries no
oracle; the `members.ref.post` outcome is `addMember`.  Returns the grant
result (or the propagated exception text) together with the provider calls
attempted. -/
def grant_admin_access (user_id group_id : String) (duration_minutes : Int)
    (justification : String) (ticket_id : Option String)
    (addMember : CallResult) (now : Int) :
    Except String AdminGrantRecord × List String :=
  let calls := ["groups.members.get", "groups.members.ref.post"]
  let granted : AdminGrantRecord :=
    { status := "granted", user_id := user_id, group_id := group_id,
      expires_at := now + duration_minutes * 60,
      duration_minutes := duration_minutes,
      justification := justification, ticket_id := ticket_id }
  match addMember with
  | .ok => (.ok granted, calls)
  | .err msg =>
      let error_msg := pyLower msg
      if strContains error_msg "already exist" ||
          strContains error_msg "added object references already exist" then
        (.ok granted, calls)
      else
        (.error msg, calls)

/-- Return value of `revoke_admin_access` (`admin_access.py` lines 100-115). -/
structure AdminRevokeRecord where
  status : String
  user_id : String
  group_id : String
  revoked_at : Option Int
  error : Option String
deriving DecidableEq, Repr

/-- Embeds `admin_access.revoke_admin_access`: every exception from the
`members...ref.delete` call is caught and reported as `already_revoked`. -/
def revoke_admin_access (user_id group_id : String)
    (removeMember : CallResult) (now : Int) : AdminRevokeRecord :=
  match removeMember with
  | .ok =>
      { status := "revoked", user_id := user_id, group_id := group_id,
        revoked_at := some now, error := none }
  | .err e =>
      { status := "already_revoked", user_id := user_id, group_id := group_id,
        revoked_at := none, error := some e }

/-! Embedding of nhi_access.py -/

/-- The table `nhi_access.ROLE_DEFINITIONS`. -/
def ROLE_DEFINITIONS : List (String × String) :=
  [("Key Vault Secrets User", "4633458b-17de-408a-b874-0445c86b69e6"),
   ("Key Vault Secrets Officer", "b86a8fe4-44ce-4948-aee5-eccb2c155cd7"),
   ("Key Vault Reader", "21090545-7ca7-4776-b22c-e363652d74d2"),
   ("Storage Blob Data Reader", "2a2b9908-6ea1-4ae2-8e65-a410df84e7d1"),
   ("Storage Blob Data Contributor", "ba92f5b4-2d11-453d-a403-e96b0029c9fe"),
   ("Reader", "acdd72a7-3385-48ef-bd42-f606fba81ae7"),
   ("Contributor", "b24988ac-6180-42a0-ab88-20f7382dd24c")]

/-- Python `role_name in ROLE_DEFINITIONS` / `ROLE_DEFINITIONS[role_name]`. -/
def lookupRole (role_name : String) : Option String :=
  (ROLE_DEFINITIONS.find? (fun p => p.1 == role_name)).map (fun p => p.2)

/-- Embeds `nhi_access.get_subscription_id_from_scope`: split on "/", and if
"subscriptions" is among the parts return the part after its first
occurrence (Python `parts[idx + 1]`, which raises IndexError when out of
range), else raise the ValueError of line 34. -/
def get_subscription_id_from_scope (scope : String) : Except PyError String :=
  let parts := pySplit scope '/'
  match parts.findIdx? (fun p => p == "subscriptions") with
  | some idx =>
      match parts.get? (idx + 1) with
      | some sub => .ok sub
      | none => .error .indexError
  | none =>
      .error (.valueError ("Could not extract subscription ID from scope: " ++ scope))

/-- Embeds `nhi_access.get_role_definition_id`. -/
def get_role_definition_id (role_name subscription_id : String) : Except PyError String :=
  match lookupRole role_name with
  | some role_guid =>
      .ok ("/subscriptions/" ++ subscription_id ++
        "/providers/Microsoft.Authorization/roleDefinitions/" ++ role_guid)
  | none =>
      .error (.valueError ("Unknown role: " ++ role_name ++ ". Add it to ROLE_DEFINITIONS."))

/-- Return value of `grant_nhi_access` (`nhi_access.py` lines 95-105). -/
structure NhiGrantRecord where
  status : String
  assignment_id : String
  assignment_name : String
  sp_object_id : String
  scope : String
  role : String
  expires_at : Int
  duration_minutes : Int
  workflow_id : String
deriving DecidableEq, Repr

/-- Embeds `nhi_access.grant_nhi_access`.  Here `assignment_name` stands for the fresh
`uuid.uuid4()`; `createResult` is the outcome of
`auth_client.role_assignments.create` (ok carries `assignment.id`).
Subscription extraction and role resolution happen, in that order, before
the create call; either failure propagates and the create call is never
made. -/
def grant_nhi_access (sp_object_id scope role_name : String)
    (duration_minutes : Int) (workflow_id : String)
    (assignment_name : String) (createResult : Except String String)
    (now : Int) : Except PyError NhiGrantRecord × List String :=
  match get_subscription_id_from_scope scope with
  | .error e => (.error e, [])
  | .ok subscription_id =>
      match get_role_definition_id role_name subscription_id with
      | .error e => (.error e, [])
      | .ok _role_definition_id =>
          match createResult with
          | .error msg => (.error (.providerError msg), ["role_assignments.create"])
          | .ok assignment_id =>
              (.ok { status := "granted", assignment_id := assignment_id,
                     assignment_name := assignment_name,
                     sp_object_id := sp_object_id, scope := scope,
                     role := role_name,
                     expires_at := now + duration_minutes * 60,
                     duration_minutes := duration_minutes,
                     workflow_id := workflow_id },
               ["role_assignments.create"])

/-- Return value of `revoke_nhi_access` (`nhi_access.py` lines 135-148). -/
structure NhiRevokeRecord where
  status : String
  assignment_id : String
  revoked_at : Option Int
  error : Option String
deriving DecidableEq, Repr

/-- Embeds `nhi_access.revoke_nhi_access`.  Lines 125-126 parse the subscription id
with `parts[parts.index("subscriptions") + 1]` OUTSIDE the try block:
a missing "subscriptions" part raises ValueError from `.index`, and an
out-of-range `idx + 1` raises IndexError; both propagate.  The
`delete_by_id` call is inside the try block and every exception from it is
reported as `already_revoked`. -/
def revoke_nhi_access (assignment_id : String)
    (deleteById : CallResult) (now : Int) : Except PyError NhiRevokeRecord :=
  let parts := pySplit assignment_id '/'
  match parts.findIdx? (fun p => p == "subscriptions") with
  | none => .error (.valueError "subscriptions is not in list")
  | some idx =>
      match parts.get? (idx + 1) with
      | none => .error .indexError
      | some _subscription_id =>
          match deleteById with
          | .ok =>
              .ok { status := "revoked", assignment_id := assignment_id,
                    revoked_at := some now, error := none }
          | .err e =>
              .ok { status := "already_revoked", assignment_id := assignment_id,
                    revoked_at := none, error := some e }

/-! Embedding of function_app.py, HTTP handler for human access -/

/-- The JSON body of a human-access request: each field is `some` when the
key is present. -/
structure AdminBody where
  user_id : Option String
  group_id : Option String
  duration_minutes : Option Int
  justification : Option String
  ticket_id : Option String
deriving DecidableEq, Repr

/-- Everything observable about one run of an HTTP handler: the HTTP status
and body pieces (`grant_record` is the grant result serialized on success),
plus the traces of provider calls attempted, audit events emitted and
orchestrations started. -/
structure HandlerOutcome (α : Type) where
  status_code : Nat
  grant_record : Option α
  orchestrator_instance_id : Option String
  response_error : Option String
  providerCalls : List String
  audits : List AuditEvent
  orchestrations : List OrchestratorInput
deriving DecidableEq, Repr

/-- Outcome of `admin_access_request`. -/
abbrev AdminOutcome := HandlerOutcome AdminGrantRecord

/-- An `AdminOutcome` for an early 4xx rejection: no effects at all. -/
def adminReject (code : Nat) (msg : String) : AdminOutcome :=
  { status_code := code, grant_record := none, orchestrator_instance_id := none,
    response_error := some msg, providerCalls := [], audits := [],
    orchestrations := [] }

/-- The `log_access_event` call of `function_app.py` lines 101-112
(successful human grant). -/
def adminSuccessEvent (user_id group_id justification : String)
    (ticket_id : Option String) (duration_minutes expires_at : Int) : AuditEvent :=
  { event_type := "AccessGrant", identity_type := "human",
    principal_id := user_id, target := group_id, target_type := "EntraGroup",
    result := "Success", role := none,
    duration_minutes := some duration_minutes,
    justification := some justification, ticket_id := ticket_id,
    workflow_id := none, expires_at := some expires_at, error_message := none }

/-- The `log_access_event` call of `function_app.py` lines 126-136 (failed
human grant; note no `ticket_id` and no `expires_at` are passed there). -/
def adminFailEvent (user_id group_id justification : String)
    (duration_minutes : Int) (err : String) : AuditEvent :=
  { event_type := "AccessGrant", identity_type := "human",
    principal_id := user_id, target := group_id, target_type := "EntraGroup",
    result := "Failed", role := none,
    duration_minutes := some duration_minutes,
    justification := some justification, ticket_id := none,
    workflow_id := none, expires_at := none, error_message := some err }

/-- The try-block of `admin_access_request` (`function_app.py` lines 78-142),
entered once validation has passed.  `startNew` is the outcome of
`client.start_new` (ok carries the instance id); `now_grant` is the clock
read inside `grant_admin_access` (admin_access.py line 65) and `now_sched`
the separate clock read of function_app.py line 88. -/
def admin_try_block (user_id group_id : String) (duration_minutes : Int)
    (justification : String) (ticket_id : Option String)
    (addMember : CallResult) (startNew : Except String String)
    (now_grant now_sched : Int) : AdminOutcome :=
  let gr := grant_admin_access user_id group_id duration_minutes justification
    ticket_id addMember now_grant
  let calls := gr.2
  match gr.1 with
  | .error e =>
      { status_code := 500, grant_record := none,
        orchestrator_instance_id := none, response_error := some e,
        providerCalls := calls,
        audits := [adminFailEvent user_id group_id justification duration_minutes e],
        orchestrations := [] }
  | .ok result =>
      let expiry_time := now_sched + duration_minutes * 60
      match startNew with
      | .error e =>
          -- the exception from start_new lands in the same except-clause
          { status_code := 500, grant_record := none,
            orchestrator_instance_id := none, response_error := some e,
            providerCalls := calls,
            audits := [adminFailEvent user_id group_id justification duration_minutes e],
            orchestrations := [] }
      | .ok instance_id =>
          { status_code := 200, grant_record := some result,
            orchestrator_instance_id := some instance_id,
            response_error := none, providerCalls := calls,
            audits := [adminSuccessEvent user_id group_id justification
              ticket_id duration_minutes result.expires_at],
            orchestrations := [mkGroupOrch user_id group_id expiry_time] }

/-- Embeds `function_app.admin_access_request`.  Here `body = none` stands for an
unparsable JSON body; `max_duration` is `MAX_ACCESS_DURATION_MINUTES`. -/
def admin_access_request (body : Option AdminBody) (max_duration : Int)
    (addMember : CallResult) (startNew : Except String String)
    (now_grant now_sched : Int) : AdminOutcome :=
  match body with
  | none => adminReject 400 "Invalid JSON body"
  | some b =>
      match b.user_id, b.group_id, b.duration_minutes, b.justification with
      | some user_id, some group_id, some duration_minutes, some justification =>
          if duration_minutes > max_duration then
            adminReject 400
              ("Duration exceeds maximum of " ++ toString max_duration ++ " minutes")
          else if justification.length < 10 then
            adminReject 400 "Justification must be at least 10 characters"
          else
            admin_try_block user_id group_id duration_minutes justification
              b.ticket_id addMember startNew now_grant now_sched
      | _, _, _, _ => adminReject 400 "Missing required fields"

/-! Embedding of function_app.py, HTTP handler for NHI access -/

/-- The JSON body of an nhi-access request. -/
structure NhiBody where
  sp_object_id : Option String
  scope : Option String
  role : Option String
  duration_minutes : Option Int
  workflow_id : Option String
deriving DecidableEq, Repr

/-- Outcome of `nhi_access_request`. -/
abbrev NhiOutcome := HandlerOutcome NhiGrantRecord

/-- An `NhiOutcome` for an early 4xx rejection: no effects at all. -/
def nhiReject (code : Nat) (msg : String) : NhiOutcome :=
  { status_code := code, grant_record := none, orchestrator_instance_id := none,
    response_error := some msg, providerCalls := [], audits := [],
    orchestrations := [] }

/-- The `log_access_event` call of `function_app.py` lines 215-226
(successful NHI grant). -/
def nhiSuccessEvent (sp_object_id scope role workflow_id : String)
    (duration_minutes expires_at : Int) : AuditEvent :=
  { event_type := "AccessGrant", identity_type := "nhi",
    principal_id := sp_object_id, target := scope,
    target_type := "AzureResource", result := "Success", role := some role,
    duration_minutes := some duration_minutes, justification := none,
    ticket_id := none, workflow_id := some workflow_id,
    expires_at := some expires_at, error_message := none }

/-- The `log_access_event` call of `function_app.py` lines 240-251 (failed
NHI grant; no `expires_at` is passed there). -/
def nhiFailEvent (sp_object_id scope role workflow_id : String)
    (duration_minutes : Int) (err : String) : AuditEvent :=
  { event_type := "AccessGrant", identity_type := "nhi",
    principal_id := sp_object_id, target := scope,
    target_type := "AzureResource", result := "Failed", role := some role,
    duration_minutes := some duration_minutes, justification := none,
    ticket_id := none, workflow_id := some workflow_id,
    expires_at := none, error_message := some err }

/-- The try-block of `nhi_access_request` (`function_app.py` lines 190-257).
`assignment_name` is the fresh uuid, `createResult` the
`role_assignments.create` outcome, `startNew` the `client.start_new`
outcome; `now_grant` is the clock read of nhi_access.py line 91 and
`now_sched` the separate clock read of function_app.py line 200. -/
def nhi_try_block (sp_object_id scope role workflow_id : String)
    (duration_minutes : Int) (assignment_name : String)
    (createResult : Except String String) (startNew : Except String String)
    (now_grant now_sched : Int) : NhiOutcome :=
  let gr := grant_nhi_access sp_object_id scope role duration_minutes
    workflow_id assignment_name createResult now_grant
  let calls := gr.2
  match gr.1 with
  | .error e =>
      { status_code := 500, grant_record := none,
        orchestrator_instance_id := none, response_error := some e.message,
        providerCalls := calls,
        audits := [nhiFailEvent sp_object_id scope role workflow_id
          duration_minutes e.message],
        orchestrations := [] }
  | .ok result =>
      let expiry_time := now_sched + duration_minutes * 60
      match startNew with
      | .error e =>
          { status_code := 500, grant_record := none,
            orchestrator_instance_id := none, response_error := some e,
            providerCalls := calls,
            audits := [nhiFailEvent sp_object_id scope role workflow_id
              duration_minutes e],
            orchestrations := [] }
      | .ok instance_id =>
          { status_code := 200, grant_record := some result,
            orchestrator_instance_id := some instance_id,
            response_error := none, providerCalls := calls,
            audits := [nhiSuccessEvent sp_object_id scope role workflow_id
              duration_minutes result.expires_at],
            orchestrations := [mkRoleOrch result.assignment_id sp_object_id
              scope role expiry_time] }

/-- Embeds `function_app.nhi_access_request`. -/
def nhi_access_request (body : Option NhiBody) (max_duration : Int)
    (assignment_name : String) (createResult : Except String String)
    (startNew : Except String String) (now_grant now_sched : Int) : NhiOutcome :=
  match body with
  | none => nhiReject 400 "Invalid JSON body"
  | some b =>
      match b.sp_object_id, b.scope, b.role, b.duration_minutes, b.workflow_id with
      | some sp_object_id, some scope, some role, some duration_minutes,
        some workflow_id =>
          if duration_minutes > max_duration then
            nhiReject 400
              ("Duration exceeds maximum of " ++ toString max_duration ++ " minutes")
          else
            nhi_try_block sp_object_id scope role workflow_id duration_minutes
              assignment_name createResult startNew now_grant now_sched
      | _, _, _, _, _ => nhiReject 400 "Missing required fields"

/-! Embedding of function_app.py, backup timer trigger -/

/-- Everything observable about one run of `backup_job_access_grant`.  Note
`audits` is here for comparison with the HTTP handlers: the timer trigger
contains no `log_access_event` call at all. -/
structure BackupOutcome where
  providerCalls : List String
  audits : List AuditEvent
  orchestrations : List OrchestratorInput
deriving DecidableEq, Repr

/-- Embeds `function_app.backup_job_access_grant` (lines 264-322).  Environment
variables are `none` when unset; `now_kv` / `now_stor` are the clock reads
inside the two `grant_nhi_access` calls and `now_sched` the single clock
read of line 302.  Any exception inside the try-block is caught at line 321
and only logged locally: no audit event is emitted on any path. -/
def backup_job_access_grant (sp_object_id keyvault_id storage_id : Option String)
    (duration : Int) (kvAssignmentName storAssignmentName : String)
    (kvCreate storCreate : Except String String)
    (startNewKv startNewStor : Except String String)
    (now_kv now_stor now_sched : Int) : BackupOutcome :=
  match sp_object_id, keyvault_id, storage_id with
  | some sp, some kv, some stor =>
      let kvGr := grant_nhi_access sp kv "Key Vault Secrets User" duration
        "nightly-backup" kvAssignmentName kvCreate now_kv
      let kvCalls := kvGr.2
      match kvGr.1 with
      | .error _ =>
          { providerCalls := kvCalls, audits := [], orchestrations := [] }
      | .ok kvResult =>
          let storGr := grant_nhi_access sp stor "Storage Blob Data Contributor"
            duration "nightly-backup" storAssignmentName storCreate now_stor
          let storCalls := storGr.2
          match storGr.1 with
          | .error _ =>
              { providerCalls := kvCalls ++ storCalls, audits := [],
                orchestrations := [] }
          | .ok storResult =>
              let expiry_time := now_sched + duration * 60
              match startNewKv with
              | .error _ =>
                  { providerCalls := kvCalls ++ storCalls, audits := [],
                    orchestrations := [] }
              | .ok _ =>
                  let kvOrch := mkRoleOrch kvResult.assignment_id sp kv
                    "Key Vault Secrets User" expiry_time
                  match startNewStor with
                  | .error _ =>
                      { providerCalls := kvCalls ++ storCalls, audits := [],
                        orchestrations := [kvOrch] }
                  | .ok _ =>
                      { providerCalls := kvCalls ++ storCalls, audits := [],
                        orchestrations := [kvOrch,
                          mkRoleOrch storResult.assignment_id sp stor
                            "Storage Blob Data Contributor" expiry_time] }
  | _, _, _ => { providerCalls := [], audits := [], orchestrations := [] }

/-! Embedding of function_app.py, revocation activities -/

/-- The `log_access_event` call of `function_app.py` lines 364-371. -/
def revokeHumanEvent (user_id group_id : String) : AuditEvent :=
  { event_type := "AccessRevoke", identity_type := "human",
    principal_id := user_id, target := group_id, target_type := "EntraGroup",
    result := "Success", role := none, duration_minutes := none,
    justification := none, ticket_id := none, workflow_id := none,
    expires_at := none, error_message := none }

/-- The `log_access_event` call of `function_app.py` lines 391-399. -/
def revokeNhiEvent (sp_object_id scope : String) (role : Option String) : AuditEvent :=
  { event_type := "AccessRevoke", identity_type := "nhi",
    principal_id := sp_object_id, target := scope,
    target_type := "AzureResource", result := "Success", role := role,
    duration_minutes := none, justification := none, ticket_id := none,
    workflow_id := none, expires_at := none, error_message := none }

/-- Embeds `function_app.revoke_group_membership_activity`: `revoke_admin_access`
never raises, so the activity always reaches the audit call and always logs
`AccessRevoke` / `Success`. -/
def revoke_group_membership_activity (user_id group_id : String)
    (removeMember : CallResult) (now : Int) :
    AdminRevokeRecord × List AuditEvent :=
  (revoke_admin_access user_id group_id removeMember now,
   [revokeHumanEvent user_id group_id])

/-- Embeds `function_app.revoke_role_assignment_activity`: if `revoke_nhi_access`
raises (only possible from the assignment-id parsing), the exception
propagates out of the activity with no audit event; otherwise — whatever
the delete outcome was — the activity logs `AccessRevoke` / `Success`. -/
def revoke_role_assignment_activity (assignment_id sp_object_id scope : String)
    (role : Option String) (deleteById : CallResult) (now : Int) :
    Except PyError (NhiRevokeRecord × List AuditEvent) :=
  match revoke_nhi_access assignment_id deleteById now with
  | .error e => .error e
  | .ok record => .ok (record, [revokeNhiEvent sp_object_id scope role])

/-! Spec-side predicates -/

/-- The audit contract of a grant attempt (spec §3, §8): exactly one
AuditEvent, its `eventType` is AccessGrant, and its `result` is Success
exactly when the handler answered 200. -/
def auditsMatchOutcome {α : Type} (o : HandlerOutcome α) : Prop :=
  o.audits.length = 1 ∧
    ∀ e ∈ o.audits, e.event_type = "AccessGrant" ∧
      (e.result = "Success" ↔ o.status_code = 200)

/-! Helper lemmas -/

lemma admin_request_valid (u g j : String) (t : Option String) (d maxd : Int)
    (add : CallResult) (sn : Except String String) (n1 n2 : Int)
    (hd : d ≤ maxd) (hj : 10 ≤ j.length) :
    admin_access_request (some ⟨some u, some g, some d, some j, t⟩) maxd add sn n1 n2 =
      admin_try_block u g d j t add sn n1 n2 := by
  simp only [admin_access_request]
  rw [if_neg (by omega), if_neg (by omega)]

lemma nhi_request_valid (sp scope role wf : String) (d maxd : Int)
    (an : String) (cr sn : Except String String) (n1 n2 : Int)
    (hd : d ≤ maxd) :
    nhi_access_request (some ⟨some sp, some scope, some role, some d, some wf⟩)
        maxd an cr sn n1 n2 =
      nhi_try_block sp scope role wf d an cr sn n1 n2 := by
  simp only [nhi_access_request]
  rw [if_neg (by omega)]

lemma admin_try_block_audit (u g : String) (d : Int) (j : String)
    (t : Option String) (add : CallResult) (sn : Except String String)
    (n1 n2 : Int) :
    auditsMatchOutcome (admin_try_block u g d j t add sn n1 n2) := by
  unfold auditsMatchOutcome
  cases add with
  | ok =>
      cases sn <;>
        simp [admin_try_block, grant_admin_access, adminSuccessEvent, adminFailEvent]
  | err msg =>
      by_cases hc : (strContains (pyLower msg) "already exist" ||
          strContains (pyLower msg) "added object references already exist") = true
      · cases sn <;>
          simp [admin_try_block, grant_admin_access, hc, adminSuccessEvent, adminFailEvent]
      · cases sn <;>
          simp [admin_try_block, grant_admin_access, hc, adminSuccessEvent, adminFailEvent]

lemma nhi_try_block_audit (sp scope role wf : String) (d : Int)
    (an : String) (cr sn : Except String String) (n1 n2 : Int) :
    auditsMatchOutcome (nhi_try_block sp scope role wf d an cr sn n1 n2) := by
  unfold auditsMatchOutcome
  cases hP : get_subscription_id_from_scope scope with
  | error e =>
      simp [nhi_try_block, grant_nhi_access, hP, nhiFailEvent]
  | ok sub =>
      cases hR : get_role_definition_id role sub with
      | error e =>
          simp [nhi_try_block, grant_nhi_access, hP, hR, nhiFailEvent]
      | ok rid =>
          cases cr with
          | error m =>
              simp [nhi_try_block, grant_nhi_access, hP, hR, nhiFailEvent]
          | ok aid =>
              cases sn <;>
                simp [nhi_try_block, grant_nhi_access, hP, hR,
                  nhiSuccessEvent, nhiFailEvent]

lemma admin_try_block_calls (u g : String) (d : Int) (j : String)
    (t : Option String) (add : CallResult) (sn : Except String String)
    (n1 n2 : Int) :
    (admin_try_block u g d j t add sn n1 n2).providerCalls =
      ["groups.members.get", "groups.members.ref.post"] := by
  cases add with
  | ok => cases sn <;> simp [admin_try_block, grant_admin_access]
  | err msg =>
      by_cases hc : (strContains (pyLower msg) "already exist" ||
          strContains (pyLower msg) "added object references already exist") = true
      · cases sn <;> simp [admin_try_block, grant_admin_access, hc]
      · cases sn <;> simp [admin_try_block, grant_admin_access, hc]

lemma grant_admin_access_ok (u g : String) (d : Int) (j : String)
    (t : Option String) (add : CallResult) (n : Int) (r : AdminGrantRecord)
    (h : (grant_admin_access u g d j t add n).1 = .ok r) :
    r = { status := "granted", user_id := u, group_id := g,
          expires_at := n + d * 60, duration_minutes := d,
          justification := j, ticket_id := t } := by
  cases add with
  | ok => simp [grant_admin_access] at h; exact h.symm
  | err msg =>
      by_cases hc : (strContains (pyLower msg) "already exist" ||
          strContains (pyLower msg) "added object references already exist") = true
      · simp [grant_admin_access, hc] at h; exact h.symm
      · simp [grant_admin_access, hc] at h

lemma grant_nhi_access_ok (sp scope role wf : String) (d : Int)
    (an : String) (cr : Except String String) (n : Int) (r : NhiGrantRecord)
    (h : (grant_nhi_access sp scope role d wf an cr n).1 = .ok r) :
    r.status = "granted" ∧ r.expires_at = n + d * 60 ∧ r.sp_object_id = sp ∧
    r.scope = scope ∧ r.role = role := by
  cases hP : get_subscription_id_from_scope scope with
  | error e => simp [grant_nhi_access, hP] at h
  | ok sub =>
      cases hR : get_role_definition_id role sub with
      | error e => simp [grant_nhi_access, hP, hR] at h
      | ok rid =>
          cases cr with
          | error m => simp [grant_nhi_access, hP, hR] at h
          | ok aid =>
              simp [grant_nhi_access, hP, hR] at h
              subst h
              simp

lemma backup_audits_nil (spE kvE stE : Option String) (bd : Int)
    (a1 a2 : String) (c1 c2 s1 s2 : Except String String) (b1 b2 b3 : Int) :
    (backup_job_access_grant spE kvE stE bd a1 a2 c1 c2 s1 s2 b1 b2 b3).audits = [] := by
  unfold backup_job_access_grant
  dsimp only
  repeat first | rfl | split


/-! Claim theorems -/


/-- Claim C1 (counterexample): a full backup-trigger run makes two grant attempts
(two provider create calls) yet emits zero AuditEvents, so it is not the
case that every grant attempt emits exactly one AccessGrant AuditEvent. -/
theorem C1_counterexample_backup_emits_no_audit :
    (backup_job_access_grant (some "sp1") (some "/subscriptions/s1/kv")
        (some "/subscriptions/s1/st") 35 "an1" "an2" (.ok "aid1") (.ok "aid2")
        (.ok "inst1") (.ok "inst2") 0 0 0).providerCalls =
      ["role_assignments.create", "role_assignments.create"] ∧
    (backup_job_access_grant (some "sp1") (some "/subscriptions/s1/kv")
        (some "/subscriptions/s1/st") 35 "an1" "an2" (.ok "aid1") (.ok "aid2")
        (.ok "inst1") (.ok "inst2") 0 0 0).audits = [] := ⟨rfl, rfl⟩

/-- Claim C1 (amended): each of the two HTTP grant endpoints, on any request that
passes validation, emits exactly one AccessGrant AuditEvent whose result is
Success exactly when the response is 200; the backup timer trigger emits no
AuditEvent at all, whatever happens. -/
theorem C1_amended_http_audits_backup_silent
    (u g j : String) (t : Option String) (d maxd : Int) (add : CallResult)
    (sn : Except String String) (n1 n2 : Int)
    (hd : d ≤ maxd) (hj : 10 ≤ j.length)
    (sp scope role wf an : String) (d2 maxd2 : Int)
    (cr sn2 : Except String String) (m1 m2 : Int) (hd2 : d2 ≤ maxd2)
    (spE kvE stE : Option String) (bd : Int) (a1 a2 : String)
    (c1 c2 s1 s2 : Except String String) (b1 b2 b3 : Int) :
    auditsMatchOutcome
      (admin_access_request (some ⟨some u, some g, some d, some j, t⟩) maxd add sn n1 n2) ∧
    auditsMatchOutcome
      (nhi_access_request (some ⟨some sp, some scope, some role, some d2, some wf⟩)
        maxd2 an cr sn2 m1 m2) ∧
    (backup_job_access_grant spE kvE stE bd a1 a2 c1 c2 s1 s2 b1 b2 b3).audits = [] := by
  refine ⟨?_, ?_, backup_audits_nil spE kvE stE bd a1 a2 c1 c2 s1 s2 b1 b2 b3⟩
  · rw [admin_request_valid u g j t d maxd add sn n1 n2 hd hj]
    exact admin_try_block_audit u g d j t add sn n1 n2
  · rw [nhi_request_valid sp scope role wf d2 maxd2 an cr sn2 m1 m2 hd2]
    exact nhi_try_block_audit sp scope role wf d2 an cr sn2 m1 m2

/-- Claim C1 (witness): the amended statement at concrete inputs. -/
theorem C1_amended_witness :
    (60 : Int) ≤ 480 ∧ 10 ≤ ("quarterly SOX audit access").length ∧ (30 : Int) ≤ 480 ∧
    (auditsMatchOutcome
      (admin_access_request (some ⟨some "u1", some "g1", some 60,
        some "quarterly SOX audit access", none⟩) 480 .ok (.ok "i1") 0 0) ∧
    auditsMatchOutcome
      (nhi_access_request (some ⟨some "sp1", some "/subscriptions/s1/kv",
        some "Key Vault Secrets User", some 30, some "nightly-backup"⟩)
        480 "an" (.ok "aid") (.ok "i2") 0 0) ∧
    (backup_job_access_grant (some "sp1") (some "/subscriptions/s1/kv")
        (some "/subscriptions/s1/st") 35 "a1" "a2" (.ok "x") (.ok "y")
        (.ok "z") (.ok "w") 0 0 0).audits = []) :=
  ⟨by decide, by decide, by decide,
   C1_amended_http_audits_backup_silent "u1" "g1" "quarterly SOX audit access"
     none 60 480 .ok (.ok "i1") 0 0 (by decide) (by decide)
     "sp1" "/subscriptions/s1/kv" "Key Vault Secrets User" "nightly-backup" "an"
     30 480 (.ok "aid") (.ok "i2") 0 0 (by decide)
     (some "sp1") (some "/subscriptions/s1/kv") (some "/subscriptions/s1/st")
     35 "a1" "a2" (.ok "x") (.ok "y") (.ok "z") (.ok "w") 0 0 0⟩



/-- Claim C2 (counterexample): a successful human grant where the clock advances
by one second between the grant-time read and the scheduling-time read:
the instant passed to the durable scheduler (3601) differs from the
`expires_at` recorded in the grant record and returned to the caller
(3600). -/
theorem C2_counterexample_clock_skew :
    (admin_access_request (some ⟨some "u1", some "g1", some 60,
        some "quarterly SOX audit access", none⟩) 480 .ok (.ok "inst") 0 1).status_code = 200 ∧
    (admin_access_request (some ⟨some "u1", some "g1", some 60,
        some "quarterly SOX audit access", none⟩) 480 .ok (.ok "inst") 0 1).orchestrations.map
      (fun o => o.expiry_time) = [3601] ∧
    (admin_access_request (some ⟨some "u1", some "g1", some 60,
        some "quarterly SOX audit access", none⟩) 480 .ok (.ok "inst") 0 1).grant_record.map
      (fun r => r.expires_at) = some 3600 ∧
    (3601 : Int) ≠ 3600 := ⟨rfl, rfl, rfl, by decide⟩

/-- Claim C2 (amended): every successful grant registers exactly one
ScheduledRevocation; its expiry instant is `now_sched + duration*60` where
`now_sched` is the handler clock read at scheduling time, while the
record returned to the caller carries `expires_at = now_grant + duration*60`
from the earlier clock read inside the grant function; the two agree when
the two clock reads coincide. -/
theorem C2_amended_one_schedule_per_grant
    (u g j : String) (t : Option String) (d maxd : Int) (add : CallResult)
    (i : String) (n1 n2 : Int) (r : AdminGrantRecord)
    (hd : d ≤ maxd) (hj : 10 ≤ j.length)
    (hG : (grant_admin_access u g d j t add n1).1 = .ok r)
    (sp scope role wf : String) (d2 maxd2 : Int) (an i2 : String)
    (cr : Except String String) (m1 m2 : Int) (r2 : NhiGrantRecord)
    (hd2 : d2 ≤ maxd2)
    (hG2 : (grant_nhi_access sp scope role d2 wf an cr m1).1 = .ok r2) :
    (admin_access_request (some ⟨some u, some g, some d, some j, t⟩) maxd add (.ok i) n1 n2).orchestrations =
      [mkGroupOrch u g (n2 + d * 60)] ∧
    (admin_access_request (some ⟨some u, some g, some d, some j, t⟩) maxd add (.ok i) n1 n2).grant_record =
      some r ∧
    r.expires_at = n1 + d * 60 ∧
    (revocation_orchestrator (mkGroupOrch u g (n2 + d * 60))).1 = n2 + d * 60 ∧
    (n2 = n1 → (mkGroupOrch u g (n2 + d * 60)).expiry_time = r.expires_at) ∧
    (nhi_access_request (some ⟨some sp, some scope, some role, some d2, some wf⟩)
        maxd2 an cr (.ok i2) m1 m2).orchestrations =
      [mkRoleOrch r2.assignment_id sp scope role (m2 + d2 * 60)] ∧
    r2.expires_at = m1 + d2 * 60 ∧
    (m2 = m1 → (mkRoleOrch r2.assignment_id sp scope role (m2 + d2 * 60)).expiry_time = r2.expires_at) := by
  have hr := grant_admin_access_ok u g d j t add n1 r hG
  have hr2 := grant_nhi_access_ok sp scope role wf d2 an cr m1 r2 hG2
  rw [admin_request_valid u g j t d maxd add (.ok i) n1 n2 hd hj,
    nhi_request_valid sp scope role wf d2 maxd2 an cr (.ok i2) m1 m2 hd2]
  refine ⟨?_, ?_, ?_, rfl, ?_, ?_, hr2.2.1, ?_⟩
  · simp [admin_try_block, hG]
  · simp [admin_try_block, hG]
  · rw [hr]
  · intro h
    rw [hr]
    simp [mkGroupOrch, h]
  · simp [nhi_try_block, hG2]
  · intro h
    rw [hr2.2.1]
    simp [mkRoleOrch, h]

/-- Claim C2 (witness): the amended statement at concrete inputs where both clock
reads coincide. -/
theorem C2_amended_witness :
    (admin_access_request (some ⟨some "u1", some "g1", some 60,
        some "quarterly SOX audit access", none⟩) 480 .ok (.ok "i1") 5 5).orchestrations =
      [mkGroupOrch "u1" "g1" 3605] ∧
    (mkGroupOrch "u1" "g1" 3605).expiry_time =
      ({ status := "granted", user_id := "u1", group_id := "g1",
         expires_at := 3605, duration_minutes := 60,
         justification := "quarterly SOX audit access",
         ticket_id := none } : AdminGrantRecord).expires_at := by
  have h := C2_amended_one_schedule_per_grant "u1" "g1"
    "quarterly SOX audit access" none 60 480 .ok "i1" 5 5
    { status := "granted", user_id := "u1", group_id := "g1",
      expires_at := 3605, duration_minutes := 60,
      justification := "quarterly SOX audit access", ticket_id := none }
    (by decide) (by decide) rfl
    "sp1" "/subscriptions/s1/kv" "Key Vault Secrets User" "nightly-backup"
    30 480 "an" "i2" (.ok "aid") 7 7
    { status := "granted", assignment_id := "aid", assignment_name := "an",
      sp_object_id := "sp1", scope := "/subscriptions/s1/kv",
      role := "Key Vault Secrets User", expires_at := 1807,
      duration_minutes := 30, workflow_id := "nightly-backup" }
    (by decide) rfl
  exact ⟨by simpa using h.1, h.2.2.2.2.1 rfl⟩



/-- Claim C3: an unexpected provider failure during a scheduled role-assignment
revoke (here an authorization failure, not an already-gone condition) is
swallowed by `revoke_nhi_access` as `already_revoked`, and the activity
records an AccessRevoke AuditEvent with result Success — the failure is
neither audit-logged as Failed nor re-raised for the retry policy. -/
theorem C3_unexpected_revoke_failure_logged_success :
    revoke_role_assignment_activity
        "/subscriptions/s1/providers/Microsoft.Authorization/roleAssignments/a1"
        "sp1" "/subscriptions/s1/kv" (some "Key Vault Secrets User")
        (.err "AuthorizationFailed: the client does not have permission") 100 =
      .ok ({ status := "already_revoked",
             assignment_id := "/subscriptions/s1/providers/Microsoft.Authorization/roleAssignments/a1",
             revoked_at := none,
             error := some "AuthorizationFailed: the client does not have permission" },
           [revokeNhiEvent "sp1" "/subscriptions/s1/kv" (some "Key Vault Secrets User")]) ∧
    (revokeNhiEvent "sp1" "/subscriptions/s1/kv" (some "Key Vault Secrets User")).result =
      "Success" ∧
    (revokeNhiEvent "sp1" "/subscriptions/s1/kv" (some "Key Vault Secrets User")).event_type =
      "AccessRevoke" := ⟨rfl, rfl, rfl⟩

/-- Claim C4 (counterexample): human grant where the provider add succeeds but
`client.start_new` raises: the caller gets a 500 error response (not a
success response with the grant record) and an AccessGrant AuditEvent with
result Failed is emitted. -/
theorem C4_counterexample_schedule_failure_500 :
    (admin_access_request (some ⟨some "u1", some "g1", some 60,
        some "quarterly SOX audit access", none⟩) 480 .ok
        (.error "scheduler unavailable") 0 0).status_code = 500 ∧
    (admin_access_request (some ⟨some "u1", some "g1", some 60,
        some "quarterly SOX audit access", none⟩) 480 .ok
        (.error "scheduler unavailable") 0 0).grant_record = none ∧
    (admin_access_request (some ⟨some "u1", some "g1", some 60,
        some "quarterly SOX audit access", none⟩) 480 .ok
        (.error "scheduler unavailable") 0 0).audits.map (fun e => e.result) =
      ["Failed"] := ⟨rfl, rfl, rfl⟩

/-- Claim C4 (amended): when the provider grant succeeds but registering the
ScheduledRevocation fails, both HTTP handlers treat it as a failed grant:
500 error response carrying the scheduling error, an AccessGrant/Failed
AuditEvent, and no orchestration registered — the grant is NOT reported as
successful. -/
theorem C4_amended_schedule_failure_is_failure_path
    (u g j : String) (t : Option String) (d maxd : Int) (e : String)
    (n1 n2 : Int) (hd : d ≤ maxd) (hj : 10 ≤ j.length)
    (sp scope role wf an aid e2 : String) (d2 maxd2 : Int) (m1 m2 : Int)
    (sub guid : String) (hd2 : d2 ≤ maxd2)
    (hP : get_subscription_id_from_scope scope = .ok sub)
    (hR : lookupRole role = some guid) :
    (admin_access_request (some ⟨some u, some g, some d, some j, t⟩) maxd .ok
        (.error e) n1 n2).status_code = 500 ∧
    (admin_access_request (some ⟨some u, some g, some d, some j, t⟩) maxd .ok
        (.error e) n1 n2).response_error = some e ∧
    (admin_access_request (some ⟨some u, some g, some d, some j, t⟩) maxd .ok
        (.error e) n1 n2).audits = [adminFailEvent u g j d e] ∧
    (admin_access_request (some ⟨some u, some g, some d, some j, t⟩) maxd .ok
        (.error e) n1 n2).orchestrations = [] ∧
    (admin_access_request (some ⟨some u, some g, some d, some j, t⟩) maxd .ok
        (.error e) n1 n2).grant_record = none ∧
    (nhi_access_request (some ⟨some sp, some scope, some role, some d2, some wf⟩)
        maxd2 an (.ok aid) (.error e2) m1 m2).status_code = 500 ∧
    (nhi_access_request (some ⟨some sp, some scope, some role, some d2, some wf⟩)
        maxd2 an (.ok aid) (.error e2) m1 m2).audits =
      [nhiFailEvent sp scope role wf d2 e2] ∧
    (nhi_access_request (some ⟨some sp, some scope, some role, some d2, some wf⟩)
        maxd2 an (.ok aid) (.error e2) m1 m2).orchestrations = [] := by
  rw [admin_request_valid u g j t d maxd .ok (.error e) n1 n2 hd hj,
    nhi_request_valid sp scope role wf d2 maxd2 an (.ok aid) (.error e2) m1 m2 hd2]
  refine ⟨?_, ?_, ?_, ?_, ?_, ?_, ?_, ?_⟩ <;>
    simp [admin_try_block, nhi_try_block, grant_admin_access, grant_nhi_access,
      hP, get_role_definition_id, hR]

/-- Claim C4 (witness): the amended statement at concrete inputs. -/
theorem C4_amended_witness :
    (admin_access_request (some ⟨some "u1", some "g1", some 60,
        some "quarterly SOX audit access", none⟩) 480 .ok
        (.error "scheduler down") 0 0).status_code = 500 ∧
    (nhi_access_request (some ⟨some "sp1", some "/subscriptions/s1/kv",
        some "Reader", some 30, some "nightly-backup"⟩)
        480 "an" (.ok "aid") (.error "scheduler down") 0 0).audits =
      [nhiFailEvent "sp1" "/subscriptions/s1/kv" "Reader" "nightly-backup"
        30 "scheduler down"] := by
  have h := C4_amended_schedule_failure_is_failure_path "u1" "g1"
    "quarterly SOX audit access" none 60 480 "scheduler down" 0 0
    (by decide) (by decide)
    "sp1" "/subscriptions/s1/kv" "Reader" "nightly-backup" "an" "aid"
    "scheduler down" 30 480 0 0 "s1" "acdd72a7-3385-48ef-bd42-f606fba81ae7"
    (by decide) rfl rfl
  exact ⟨h.1, h.2.2.2.2.2.2.1⟩



/-- Claim C5: revoking an already-absent target never errors: any failure of the
group-membership remove is reported as `already_revoked`, and for a
well-formed assignment id any failure of the role-assignment delete is
likewise reported as `already_revoked` (no exception propagates). -/
theorem C5_already_absent_revoke
    (u g e : String) (n : Int) (aid e2 : String) (m : Int) (idx : Nat)
    (sub : String)
    (h1 : (pySplit aid '/').findIdx? (fun p => p == "subscriptions") = some idx)
    (h2 : (pySplit aid '/')[idx + 1]? = some sub) :
    revoke_admin_access u g (.err e) n =
      { status := "already_revoked", user_id := u, group_id := g,
        revoked_at := none, error := some e } ∧
    revoke_nhi_access aid (.err e2) m =
      .ok { status := "already_revoked", assignment_id := aid,
            revoked_at := none, error := some e2 } := by
  refine ⟨rfl, ?_⟩
  simp [revoke_nhi_access, h1, h2]

/-- Claim C5 (witness): the statement at concrete inputs. -/
theorem C5_witness :
    revoke_admin_access "u1" "g1" (.err "user is gone") 9 =
      { status := "already_revoked", user_id := "u1", group_id := "g1",
        revoked_at := none, error := some "user is gone" } ∧
    revoke_nhi_access
        "/subscriptions/s1/providers/Microsoft.Authorization/roleAssignments/a1"
        (.err "assignment not found") 9 =
      .ok { status := "already_revoked",
            assignment_id :=
              "/subscriptions/s1/providers/Microsoft.Authorization/roleAssignments/a1",
            revoked_at := none, error := some "assignment not found" } :=
  C5_already_absent_revoke "u1" "g1" "user is gone" 9
    "/subscriptions/s1/providers/Microsoft.Authorization/roleAssignments/a1"
    "assignment not found" 9 1 "s1" rfl rfl

/-- Claim C6: a request whose duration exceeds the configured maximum is rejected
with a 400 response before anything happens: no provider call, no audit
event, no orchestration — on both endpoints. -/
theorem C6_duration_rejected_before_provider
    (u g j : String) (t : Option String) (d maxd : Int) (add : CallResult)
    (sn : Except String String) (n1 n2 : Int) (hd : d > maxd)
    (sp scope role wf an : String) (d2 maxd2 : Int)
    (cr sn2 : Except String String) (m1 m2 : Int) (hd2 : d2 > maxd2) :
    admin_access_request (some ⟨some u, some g, some d, some j, t⟩) maxd add sn n1 n2 =
      adminReject 400 ("Duration exceeds maximum of " ++ toString maxd ++ " minutes") ∧
    (admin_access_request (some ⟨some u, some g, some d, some j, t⟩) maxd add sn n1 n2).providerCalls = [] ∧
    (admin_access_request (some ⟨some u, some g, some d, some j, t⟩) maxd add sn n1 n2).audits = [] ∧
    (admin_access_request (some ⟨some u, some g, some d, some j, t⟩) maxd add sn n1 n2).orchestrations = [] ∧
    nhi_access_request (some ⟨some sp, some scope, some role, some d2, some wf⟩) maxd2 an cr sn2 m1 m2 =
      nhiReject 400 ("Duration exceeds maximum of " ++ toString maxd2 ++ " minutes") ∧
    (nhi_access_request (some ⟨some sp, some scope, some role, some d2, some wf⟩) maxd2 an cr sn2 m1 m2).providerCalls = [] ∧
    (nhi_access_request (some ⟨some sp, some scope, some role, some d2, some wf⟩) maxd2 an cr sn2 m1 m2).audits = [] ∧
    (nhi_access_request (some ⟨some sp, some scope, some role, some d2, some wf⟩) maxd2 an cr sn2 m1 m2).orchestrations = [] := by
  have hA : admin_access_request (some ⟨some u, some g, some d, some j, t⟩) maxd add sn n1 n2 =
      adminReject 400 ("Duration exceeds maximum of " ++ toString maxd ++ " minutes") := by
    simp only [admin_access_request]
    rw [if_pos hd]
  have hN : nhi_access_request (some ⟨some sp, some scope, some role, some d2, some wf⟩) maxd2 an cr sn2 m1 m2 =
      nhiReject 400 ("Duration exceeds maximum of " ++ toString maxd2 ++ " minutes") := by
    simp only [nhi_access_request]
    rw [if_pos hd2]
  rw [hA, hN]
  exact ⟨rfl, rfl, rfl, rfl, rfl, rfl, rfl, rfl⟩

/-- Claim C6 (witness): the statement at concrete inputs. -/
theorem C6_witness :
    admin_access_request (some ⟨some "u1", some "g1", some 481,
        some "quarterly SOX audit access", none⟩) 480 .ok (.ok "i") 0 0 =
      adminReject 400 "Duration exceeds maximum of 480 minutes" ∧
    nhi_access_request (some ⟨some "sp1", some "/subscriptions/s1/kv",
        some "Reader", some 9999, some "wf"⟩) 480 "an" (.ok "aid") (.ok "i") 0 0 =
      nhiReject 400 "Duration exceeds maximum of 480 minutes" := by
  have h := C6_duration_rejected_before_provider "u1" "g1"
    "quarterly SOX audit access" none 481 480 .ok (.ok "i") 0 0 (by decide)
    "sp1" "/subscriptions/s1/kv" "Reader" "wf" "an" 9999 480
    (.ok "aid") (.ok "i") 0 0 (by decide)
  refine ⟨?_, ?_⟩
  · have := h.1
    simpa using this
  · have := h.2.2.2.2.1
    simpa using this



/-- Claim C7: a role-assignment grant for a role name outside ROLE_DEFINITIONS
never reaches the provider create call (for any scope), and — when the
scope itself parses — the request fails with the UnknownRole ValueError:
500 response carrying the message, no provider call, no orchestration. -/
theorem C7_unknown_role_no_assignment
    (sp scope role wf an : String) (d maxd : Int)
    (cr sn : Except String String) (n1 n2 : Int) (sub : String)
    (hrole : lookupRole role = none) (hd : d ≤ maxd)
    (hscope : get_subscription_id_from_scope scope = .ok sub) :
    (∀ (scope2 : String) (cr2 : Except String String) (m : Int),
        (grant_nhi_access sp scope2 role d wf an cr2 m).2 = []) ∧
    (grant_nhi_access sp scope role d wf an cr n1).1 =
      .error (.valueError ("Unknown role: " ++ role ++ ". Add it to ROLE_DEFINITIONS.")) ∧
    (nhi_access_request (some ⟨some sp, some scope, some role, some d, some wf⟩)
        maxd an cr sn n1 n2).status_code = 500 ∧
    (nhi_access_request (some ⟨some sp, some scope, some role, some d, some wf⟩)
        maxd an cr sn n1 n2).response_error =
      some ("Unknown role: " ++ role ++ ". Add it to ROLE_DEFINITIONS.") ∧
    (nhi_access_request (some ⟨some sp, some scope, some role, some d, some wf⟩)
        maxd an cr sn n1 n2).providerCalls = [] ∧
    (nhi_access_request (some ⟨some sp, some scope, some role, some d, some wf⟩)
        maxd an cr sn n1 n2).orchestrations = [] := by
  have hcalls : ∀ (scope2 : String) (cr2 : Except String String) (m : Int),
      (grant_nhi_access sp scope2 role d wf an cr2 m).2 = [] := by
    intro scope2 cr2 m
    cases hP : get_subscription_id_from_scope scope2 with
    | error e => simp [grant_nhi_access, hP]
    | ok sub2 => simp [grant_nhi_access, hP, get_role_definition_id, hrole]
  have hfail : (grant_nhi_access sp scope role d wf an cr n1).1 =
      .error (.valueError ("Unknown role: " ++ role ++ ". Add it to ROLE_DEFINITIONS.")) := by
    simp [grant_nhi_access, hscope, get_role_definition_id, hrole]
  rw [nhi_request_valid sp scope role wf d maxd an cr sn n1 n2 hd]
  refine ⟨hcalls, hfail, ?_, ?_, ?_, ?_⟩ <;>
    simp [nhi_try_block, hfail, hcalls scope cr n1, PyError.message]

/-- Claim C7 (witness): the statement at concrete inputs. -/
theorem C7_witness :
    (grant_nhi_access "sp1" "/subscriptions/s1/kv" "Owner" 30 "wf" "an"
        (.ok "aid") 0).1 =
      .error (.valueError "Unknown role: Owner. Add it to ROLE_DEFINITIONS.") ∧
    (nhi_access_request (some ⟨some "sp1", some "/subscriptions/s1/kv",
        some "Owner", some 30, some "wf"⟩) 480 "an" (.ok "aid") (.ok "i") 0 0).providerCalls = [] := by
  have h := C7_unknown_role_no_assignment "sp1" "/subscriptions/s1/kv" "Owner"
    "wf" "an" 30 480 (.ok "aid") (.ok "i") 0 0 "s1" rfl (by decide) rfl
  exact ⟨h.2.1, h.2.2.2.2.1⟩

/-- Claim C8: when the provider add fails with an "already a member" class of
error (its message contains "already exist", case-insensitively), the grant
is treated as success: the grant function returns status `granted` with the
usual expiry, and the endpoint answers 200. -/
theorem C8_duplicate_member_granted
    (u g j : String) (t : Option String) (d maxd : Int) (n1 n2 : Int)
    (msg i : String)
    (h : strContains (pyLower msg) "already exist" = true)
    (hd : d ≤ maxd) (hj : 10 ≤ j.length) :
    (grant_admin_access u g d j t (.err msg) n1).1 =
      .ok { status := "granted", user_id := u, group_id := g,
            expires_at := n1 + d * 60, duration_minutes := d,
            justification := j, ticket_id := t } ∧
    (admin_access_request (some ⟨some u, some g, some d, some j, t⟩) maxd
        (.err msg) (.ok i) n1 n2).status_code = 200 := by
  have hg : (grant_admin_access u g d j t (.err msg) n1).1 =
      .ok { status := "granted", user_id := u, group_id := g,
            expires_at := n1 + d * 60, duration_minutes := d,
            justification := j, ticket_id := t } := by
    simp [grant_admin_access, h]
  refine ⟨hg, ?_⟩
  rw [admin_request_valid u g j t d maxd (.err msg) (.ok i) n1 n2 hd hj]
  simp [admin_try_block, hg]

/-- Claim C8 (witness): the statement at a concrete Graph-style error message. -/
theorem C8_witness :
    strContains (pyLower "One or more added object references ALREADY EXIST")
      "already exist" = true ∧
    (admin_access_request (some ⟨some "u1", some "g1", some 60,
        some "quarterly SOX audit access", none⟩) 480
        (.err "One or more added object references ALREADY EXIST")
        (.ok "i") 0 0).status_code = 200 :=
  ⟨by decide,
   (C8_duplicate_member_granted "u1" "g1" "quarterly SOX audit access" none
     60 480 0 0 "One or more added object references ALREADY EXIST" "i"
     (by decide) (by decide) (by decide)).2⟩



/-- Claim C9 (counterexample): a human request with `duration_minutes = 0` passes
validation — the handler answers 200 and the provider add IS called — so
validation does not reject non-positive durations. -/
theorem C9_counterexample_zero_duration_accepted :
    (admin_access_request (some ⟨some "u1", some "g1", some 0,
        some "quarterly SOX audit access", none⟩) 480 .ok (.ok "i") 0 0).status_code = 200 ∧
    (admin_access_request (some ⟨some "u1", some "g1", some 0,
        some "quarterly SOX audit access", none⟩) 480 .ok (.ok "i") 0 0).providerCalls =
      ["groups.members.get", "groups.members.ref.post"] ∧
    ¬ (0 : Int) > 0 := ⟨rfl, rfl, by decide⟩

/-- Claim C9 (amended): validation bounds the duration only from above: any
request (human or NHI) with `duration_minutes ≤ max`, including zero and
negative values, passes validation and the provider grant call is made. -/
theorem C9_amended_only_upper_bound
    (u g j : String) (t : Option String) (d maxd : Int) (add : CallResult)
    (sn : Except String String) (n1 n2 : Int)
    (hd : d ≤ maxd) (hj : 10 ≤ j.length)
    (sp scope role wf an : String) (d2 maxd2 : Int)
    (cr sn2 : Except String String) (m1 m2 : Int) (sub guid : String)
    (hd2 : d2 ≤ maxd2)
    (hP : get_subscription_id_from_scope scope = .ok sub)
    (hR : lookupRole role = some guid) :
    (admin_access_request (some ⟨some u, some g, some d, some j, t⟩) maxd add sn n1 n2).providerCalls =
      ["groups.members.get", "groups.members.ref.post"] ∧
    (nhi_access_request (some ⟨some sp, some scope, some role, some d2, some wf⟩)
        maxd2 an cr sn2 m1 m2).providerCalls = ["role_assignments.create"] := by
  rw [admin_request_valid u g j t d maxd add sn n1 n2 hd hj,
    nhi_request_valid sp scope role wf d2 maxd2 an cr sn2 m1 m2 hd2]
  refine ⟨admin_try_block_calls u g d j t add sn n1 n2, ?_⟩
  cases cr with
  | error m =>
      simp [nhi_try_block, grant_nhi_access, hP, get_role_definition_id, hR]
  | ok aid =>
      cases sn2 <;>
        simp [nhi_try_block, grant_nhi_access, hP, get_role_definition_id, hR]

/-- Claim C9 (witness): the amended statement at a negative duration. -/
theorem C9_amended_witness :
    (-5 : Int) ≤ 480 ∧
    (admin_access_request (some ⟨some "u1", some "g1", some (-5),
        some "quarterly SOX audit access", none⟩) 480 .ok (.ok "i") 0 0).providerCalls =
      ["groups.members.get", "groups.members.ref.post"] ∧
    (nhi_access_request (some ⟨some "sp1", some "/subscriptions/s1/kv",
        some "Reader", some (-5), some "wf"⟩) 480 "an" (.ok "aid")
        (.ok "i") 0 0).providerCalls = ["role_assignments.create"] := by
  have h := C9_amended_only_upper_bound "u1" "g1" "quarterly SOX audit access"
    none (-5) 480 .ok (.ok "i") 0 0 (by decide) (by decide)
    "sp1" "/subscriptions/s1/kv" "Reader" "wf" "an" (-5) 480
    (.ok "aid") (.ok "i") 0 0 "s1" "acdd72a7-3385-48ef-bd42-f606fba81ae7"
    (by decide) rfl rfl
  exact ⟨by decide, h.1, h.2⟩

/-- Claim C10 (counterexample): for the scope "/subscriptions" — whose final
segment is "subscriptions" — extraction performs an out-of-bounds access
(IndexError), not the documented ValueError, and the same parse inside
`revoke_nhi_access` does the same. -/
theorem C10_counterexample_trailing_subscriptions :
    get_subscription_id_from_scope "/subscriptions" = .error .indexError ∧
    PyError.indexError ≠
      PyError.valueError "Could not extract subscription ID from scope: /subscriptions" ∧
    revoke_nhi_access "/subscriptions" .ok 0 = .error .indexError :=
  ⟨rfl, by decide, rfl⟩

/-- Claim C10 (amended): subscription extraction has exactly three outcomes: with
no "subscriptions" segment it raises the documented ValueError (for
`revoke_nhi_access`, the ValueError from `list.index`); with a segment
after the first "subscriptions" it returns that segment; and when the
first "subscriptions" is the final segment it raises IndexError from the
out-of-bounds access — in both `get_subscription_id_from_scope` and the
parse inside `revoke_nhi_access`. -/
theorem C10_amended_parse_trichotomy
    (scope aid : String) (dr : CallResult) (n : Int) :
    (((pySplit scope '/').findIdx? (fun p => p == "subscriptions") = none →
        get_subscription_id_from_scope scope =
          .error (.valueError ("Could not extract subscription ID from scope: " ++ scope))) ∧
     (∀ (idx : Nat) (sub : String),
        (pySplit scope '/').findIdx? (fun p => p == "subscriptions") = some idx →
        (pySplit scope '/')[idx + 1]? = some sub →
        get_subscription_id_from_scope scope = .ok sub) ∧
     (∀ (idx : Nat),
        (pySplit scope '/').findIdx? (fun p => p == "subscriptions") = some idx →
        (pySplit scope '/')[idx + 1]? = none →
        get_subscription_id_from_scope scope = .error .indexError)) ∧
    (((pySplit aid '/').findIdx? (fun p => p == "subscriptions") = none →
        revoke_nhi_access aid dr n = .error (.valueError "subscriptions is not in list")) ∧
     (∀ (idx : Nat),
        (pySplit aid '/').findIdx? (fun p => p == "subscriptions") = some idx →
        (pySplit aid '/')[idx + 1]? = none →
        revoke_nhi_access aid dr n = .error .indexError)) := by
  refine ⟨⟨?_, ?_, ?_⟩, ?_, ?_⟩
  · intro h
    simp [get_subscription_id_from_scope, h]
  · intro idx sub h1 h2
    simp [get_subscription_id_from_scope, h1, h2]
  · intro idx h1 h2
    simp [get_subscription_id_from_scope, h1, h2]
  · intro h
    simp [revoke_nhi_access, h]
  · intro idx h1 h2
    simp [revoke_nhi_access, h1, h2]

/-- Claim C10 (witness): the amended statement at concrete inputs — a well-formed
scope hits the ok branch, and an id ending in "subscriptions" hits the
IndexError branch of the revoke-side parse. -/
theorem C10_amended_witness :
    get_subscription_id_from_scope "/subscriptions/abc/x" = .ok "abc" ∧
    revoke_nhi_access "/a/subscriptions" .ok 0 = .error .indexError := by
  have h := C10_amended_parse_trichotomy "/subscriptions/abc/x" "/a/subscriptions" .ok 0
  exact ⟨h.1.2.1 1 "abc" rfl rfl, h.2.2 2 rfl rfl⟩


end ZSP
